import Mathlib

/-!
Shallow embedding of `openplantbook_sdk/sdk.py` (OpenPlantBookApi).

The HTTP transport is modelled as an oracle passed to each operation: the
outcome the transport would produce (a decoded response, or an exception
kind).  Time is an integer number of seconds; the Python code stores the
token expiry as an ISO string and compares `datetime` values, which we
model as integer comparison.  Python exceptions become explicit error
values (`Except`).
-/

/-- Python truthiness of an optional string: `None` and the empty string are
falsy (this is what `not self.client_id` tests in `_async_get_token`). -/
def pyTruthy : Option String → Bool
  | none => false
  | some s => s ≠ ""

/-- The cached OAuth credential: the `self.token` dict, reduced to the two
fields the SDK reads (`access_token`, and `expires` stored as a timestamp). -/
structure Credential where
  access_token : String
  expires : Int
deriving Repr, DecidableEq

/-- The mutable state of an `OpenPlantBookApi` instance (`__init__`). -/
structure ApiState where
  client_id : Option String
  secret : Option String
  base_url : String
  token : Option Credential
deriving Repr, DecidableEq

/-- Exception kinds the aiohttp transport can raise, as matched by the
`except` clauses in `sdk.py`: `ServerTimeoutError`, `TooManyRedirects`,
`ClientError`, and any other unexpected exception. -/
inductive TransportExc where
  | serverTimeout
  | tooManyRedirects
  | clientError
  | other
deriving Repr, DecidableEq

/-- A decoded token-exchange response body.  `access_token = ""` models a
body whose `access_token` is missing or empty (both are falsy under
`token.get("access_token")`). -/
structure TokenResponse where
  access_token : String
  expires_in : Int
deriving Repr, DecidableEq

/-- Outcome of the POST to `{base_url}/token/`: a decoded response, or a
transport exception. -/
inductive TokenExchange where
  | response (r : TokenResponse)
  | exc (e : TransportExc)
deriving Repr, DecidableEq

/-- Errors `_async_get_token` can raise: `MissingClientIdOrSecret`,
`PermissionError`, or a re-raised transport exception. -/
inductive TokenError where
  | missingClientIdOrSecret
  | permissionError
  | transport (e : TransportExc)
deriving Repr, DecidableEq

/-- Result of one `_async_get_token` call: the returned value or raised
error, the credential cached afterwards (`self.token`), and how many
token-exchange transport calls were made. -/
structure TokenRun where
  result : Except TokenError Bool
  token : Option Credential
  calls : Nat
deriving Repr

/-- The token-exchange branch of `_async_get_token` (sdk.py lines 46-79):
POST to `{base_url}/token/`; if the response has a truthy `access_token`,
set `token["expires"] = now + expires_in` and store the response wholesale
as `self.token`; otherwise raise `PermissionError`; transport exceptions
are logged and re-raised. -/
def tokenExchangeStep (st : ApiState) (now : Int) (x : TokenExchange) : TokenRun :=
  match x with
  | .response r =>
      if r.access_token ≠ "" then
        { result := .ok true
          token := some { access_token := r.access_token, expires := now + r.expires_in }
          calls := 1 }
      else
        { result := .error .permissionError, token := st.token, calls := 1 }
  | .exc e => { result := .error (.transport e), token := st.token, calls := 1 }

/-- Embedding of `OpenPlantBookApi._async_get_token` (sdk.py lines 34-79).
Checks client credentials first, then the freshness of any cached token
(`expires > now + 5 minutes`), and otherwise performs the exchange. -/
def async_get_token (st : ApiState) (now : Int) (x : TokenExchange) : TokenRun :=
  if !pyTruthy st.client_id || !pyTruthy st.secret then
    { result := .error .missingClientIdOrSecret, token := st.token, calls := 0 }
  else
    match st.token with
    | some cred =>
        if cred.expires > now + 5 * 60 then
          { result := .ok true, token := st.token, calls := 0 }
        else tokenExchangeStep st now x
    | none => tokenExchangeStep st now x

/-- Claim C1: for every cached credential whose expiry is strictly later
than `now + 5` minutes, `_async_get_token` succeeds with the cached
credential left unchanged and performs zero transport calls (the outcome
is the same for every possible transport behaviour `x`). -/
theorem async_get_token_cached_fresh (st : ApiState) (now : Int) (x : TokenExchange)
    (cred : Credential)
    (hid : pyTruthy st.client_id = true) (hsec : pyTruthy st.secret = true)
    (htok : st.token = some cred) (hfresh : cred.expires > now + 5 * 60) :
    async_get_token st now x = { result := .ok true, token := some cred, calls := 0 } := by
  unfold async_get_token
  rw [htok]
  simp [hid, hsec]
  intro hle
  exact absurd hfresh (by omega)

/-- Witness for C1 at a concrete fresh credential. -/
theorem async_get_token_cached_fresh_witness :
    async_get_token ⟨some "id", some "sec", "https://x", some ⟨"tok", 1000⟩⟩ 0
        (.exc .clientError)
      = { result := .ok true, token := some ⟨"tok", 1000⟩, calls := 0 } :=
  async_get_token_cached_fresh _ _ _ _ (by decide) (by decide) rfl (by decide)

/-- Claim C2: when no credential is cached or the cached one expires at or
before `now + 5` minutes, `_async_get_token` performs exactly one
token-exchange call whatever the transport outcome, and on a response with
a non-empty access token it stores (wholesale, built only from the
response and `now`, not merged with the prior credential) a credential
expiring at `now + expires_in` and succeeds. -/
theorem async_get_token_refresh (st : ApiState) (now : Int) (r : TokenResponse)
    (hid : pyTruthy st.client_id = true) (hsec : pyTruthy st.secret = true)
    (hstale : st.token = none ∨ ∃ cred, st.token = some cred ∧ cred.expires ≤ now + 5 * 60) :
    (∀ x, (async_get_token st now x).calls = 1) ∧
    (r.access_token ≠ "" →
      async_get_token st now (.response r)
        = { result := .ok true
            token := some { access_token := r.access_token, expires := now + r.expires_in }
            calls := 1 }) := by
  have hstep : ∀ x, async_get_token st now x = tokenExchangeStep st now x := by
    intro x
    unfold async_get_token
    rcases hstale with h | ⟨cred, hc, hle⟩
    · rw [h]; simp [hid, hsec]
    · rw [hc]
      simp [hid, hsec]
      intro hgt
      exact absurd hgt (by omega)
  constructor
  · intro x
    rw [hstep x]
    cases x with
    | response r' =>
        by_cases h : r'.access_token = "" <;> simp [tokenExchangeStep, h]
    | exc e => simp [tokenExchangeStep]
  · intro hne
    rw [hstep]
    simp [tokenExchangeStep, hne]

/-- Witness for C2: a stale cached credential is replaced by one built from
the response. -/
theorem async_get_token_refresh_witness :
    (∀ x, (async_get_token ⟨some "id", some "sec", "https://x", some ⟨"old", 100⟩⟩ 0 x).calls
        = 1) ∧
    (("new" : String) ≠ "" →
      async_get_token ⟨some "id", some "sec", "https://x", some ⟨"old", 100⟩⟩ 0
          (.response ⟨"new", 3600⟩)
        = { result := .ok true, token := some ⟨"new", 3600⟩, calls := 1 }) := by
  have h := async_get_token_refresh ⟨some "id", some "sec", "https://x", some ⟨"old", 100⟩⟩ 0
      ⟨"new", 3600⟩ (by decide) (by decide) (Or.inr ⟨⟨"old", 100⟩, rfl, by decide⟩)
  exact ⟨h.1, fun hne => h.2 hne⟩

/-- Claim C4: with an empty or absent client id or secret,
`_async_get_token` raises `MissingClientIdOrSecret` and performs zero
transport calls; the check happens before the cached-credential check
(the theorem holds for every cached token, including a fresh one) and
before any network access (the outcome is independent of `x`). -/
theorem async_get_token_missing_credentials (st : ApiState) (now : Int) (x : TokenExchange)
    (h : pyTruthy st.client_id = false ∨ pyTruthy st.secret = false) :
    async_get_token st now x
      = { result := .error .missingClientIdOrSecret, token := st.token, calls := 0 } := by
  unfold async_get_token
  rcases h with h | h <;> simp [h]

/-- Witness for C4: empty client id with a perfectly fresh cached token
still fails before the cache is consulted. -/
theorem async_get_token_missing_credentials_witness :
    async_get_token ⟨some "", some "sec", "https://x", some ⟨"tok", 10 ^ 9⟩⟩ 0
        (.response ⟨"new", 3600⟩)
      = { result := .error .missingClientIdOrSecret, token := some ⟨"tok", 10 ^ 9⟩,
          calls := 0 } :=
  async_get_token_missing_credentials _ _ _ (Or.inl (by decide))

/-- Claim C5: a token-exchange response with no (or empty) `access_token`
makes `_async_get_token` raise `PermissionError`, storing nothing: the
previously cached credential (possibly absent) is left unchanged. -/
theorem async_get_token_no_access_token (st : ApiState) (now : Int) (r : TokenResponse)
    (hid : pyTruthy st.client_id = true) (hsec : pyTruthy st.secret = true)
    (hstale : st.token = none ∨ ∃ cred, st.token = some cred ∧ cred.expires ≤ now + 5 * 60)
    (hempty : r.access_token = "") :
    async_get_token st now (.response r)
      = { result := .error .permissionError, token := st.token, calls := 1 } := by
  unfold async_get_token
  rcases hstale with h | ⟨cred, hc, hle⟩
  · rw [h]; simp [hid, hsec, tokenExchangeStep, hempty, h]
  · rw [hc]
    simp [hid, hsec, tokenExchangeStep, hempty, hc]
    omega

/-- Witness for C5: a stale credential survives a failed exchange. -/
theorem async_get_token_no_access_token_witness :
    async_get_token ⟨some "id", some "sec", "https://x", some ⟨"old", 100⟩⟩ 0
        (.response ⟨"", 3600⟩)
      = { result := .error .permissionError, token := some ⟨"old", 100⟩, calls := 1 } :=
  async_get_token_no_access_token _ _ _ (by decide) (by decide)
    (Or.inr ⟨⟨"old", 100⟩, rfl, by decide⟩) rfl

/-!
Python dicts with string keys: association lists with unique keys, in
insertion order.  `dictSet` is `d[k] = v` (replace in place, or append);
`dictGet` is `d.get(k)`; `dictUpdate` is `d.update(e)`.
-/

/-- Python `d[k] = v` on a string-keyed dict. -/
def dictSet {α : Type} : List (String × α) → String → α → List (String × α)
  | [], k, v => [(k, v)]
  | kv :: rest, k, v =>
      if kv.1 == k then (k, v) :: rest else kv :: dictSet rest k v

/-- Python `d.get(k)` on a string-keyed dict. -/
def dictGet {α : Type} : List (String × α) → String → Option α
  | [], _ => none
  | kv :: rest, k => if kv.1 == k then some kv.2 else dictGet rest k

/-- Python `d.update(e)` on string-keyed dicts. -/
def dictUpdate {α : Type} (d e : List (String × α)) : List (String × α) :=
  e.foldl (fun acc kv => dictSet acc kv.1 kv.2) d

/-- String-to-string query-parameter dict. -/
abbrev StrDict := List (String × String)

/-- Python `str()` of a bool. -/
def pyStrBool : Bool → String
  | true => "True"
  | false => "False"

/-- Outcome of an operation's own HTTP request (after the token step): a
decoded/processed response of type `α`, or a raised exception kind. -/
inductive ReqOutcome (α : Type) where
  | response (r : α)
  | exc (e : TransportExc)
deriving Repr

/-- The only part of an upload response the SDK reads: `result.ok`
(whether the response status indicates success). -/
structure UploadResponse where
  ok : Bool
deriving Repr, DecidableEq

/-- Failures an operation can raise to its caller: a failure propagated
from the token step, or an exception raised during its own request. -/
inductive OpFailure where
  | tokenFailure (e : TokenError)
  | requestExc (e : TransportExc)
deriving Repr, DecidableEq

/-- The request an operation dispatches: URL and optional query dict. -/
structure HttpReq where
  url : String
  query : Option StrDict
deriving Repr, DecidableEq

/-- One operation run: the request dispatched (none when the token step
failed, so no request was issued), and the returned value — `.ok (some v)`
models `return v`, `.ok none` models `return None`, `.error` models a
raised exception. -/
structure OpRun (α : Type) where
  sent : Option HttpReq
  result : Except OpFailure (Option α)

/-- Exception handling of `async_plant_detail_get` (sdk.py lines 108-127):
timeout, redirects, client error, and any other exception all return
`None`. -/
def detailHandle {α : Type} : ReqOutcome α → Except TransportExc (Option α)
  | .response r => .ok (some r)
  | .exc .serverTimeout => .ok none
  | .exc .tooManyRedirects => .ok none
  | .exc .clientError => .ok none
  | .exc .other => .ok none

/-- Exception handling of `async_plant_search` (sdk.py lines 152-168):
timeout, redirects and client error return `None`; there is no generic
`except Exception` clause, so any other exception propagates. -/
def searchHandle {α : Type} : ReqOutcome α → Except TransportExc (Option α)
  | .response r => .ok (some r)
  | .exc .serverTimeout => .ok none
  | .exc .tooManyRedirects => .ok none
  | .exc .clientError => .ok none
  | .exc .other => .error .other

/-- Exception handling of `async_plant_data_upload` (sdk.py lines 301-323):
timeout, redirects and client error return `None`; on a response the
returned value is `result.ok`; any other exception propagates. -/
def uploadHandle : ReqOutcome UploadResponse → Except TransportExc (Option Bool)
  | .response r => .ok (some r.ok)
  | .exc .serverTimeout => .ok none
  | .exc .tooManyRedirects => .ok none
  | .exc .clientError => .ok none
  | .exc .other => .error .other

/-- Wraps a request-level outcome into the operation result type. -/
def liftHandle {α : Type} : Except TransportExc (Option α) → Except OpFailure (Option α)
  | .ok v => .ok v
  | .error e => .error (.requestExc e)

/-- Query-parameter computation of `async_plant_detail_get` (sdk.py lines
105-110): start from a copy of `params` (or empty), assign
`query_params["lang"] = lang` when `lang` is not None, and pass
`query_params or None` to the session. -/
def detailQueryParams (lang : Option String) (params : Option StrDict) : Option StrDict :=
  let query_params := match params with
    | some p => p
    | none => []
  let query_params := match lang with
    | some l => dictSet query_params "lang" l
    | none => query_params
  if query_params.isEmpty then none else some query_params

/-- Embedding of `OpenPlantBookApi.async_plant_detail_get` (sdk.py lines
81-127): token step, then a GET of `/plant/detail/{pid}` with the merged
query parameters; token failures propagate, request failures return None. -/
def async_plant_detail_get {α : Type} (st : ApiState) (now : Int) (x : TokenExchange)
    (pid : String) (lang : Option String) (params : Option StrDict)
    (o : ReqOutcome α) : OpRun α :=
  match (async_get_token st now x).result with
  | .error e => ⟨none, .error (.tokenFailure e)⟩
  | .ok _ =>
      ⟨some ⟨st.base_url ++ "/plant/detail/" ++ pid, detailQueryParams lang params⟩,
        liftHandle (detailHandle o)⟩

/-- Embedding of `OpenPlantBookApi.async_plant_search` (sdk.py lines
131-168): token step, then a GET of `/plant/search?alias={text}` with
`params or None`; token failures propagate, transport failures return
None, other exceptions propagate. -/
def async_plant_search {α : Type} (st : ApiState) (now : Int) (x : TokenExchange)
    (search_text : String) (params : Option StrDict) (o : ReqOutcome α) : OpRun α :=
  match (async_get_token st now x).result with
  | .error e => ⟨none, .error (.tokenFailure e)⟩
  | .ok _ =>
      ⟨some ⟨st.base_url ++ "/plant/search?alias=" ++ search_text,
          match params with
          | some p => if p.isEmpty then none else some p
          | none => none⟩,
        liftHandle (searchHandle o)⟩

/-- Query-parameter computation of `async_plant_data_upload` (sdk.py lines
305-307): `{"dry_run": str(dry_run)}` updated with the caller's `params`,
so caller-supplied keys override the computed value. -/
def uploadQueryParams (dry_run : Bool) (params : Option StrDict) : StrDict :=
  let query_params : StrDict := [("dry_run", pyStrBool dry_run)]
  match params with
  | some p => dictUpdate query_params p
  | none => query_params

/-- Embedding of `OpenPlantBookApi.async_plant_data_upload` (sdk.py lines
273-323): token step, then a POST of the serialized document to
`/sensor-data/upload` with the merged query parameters; returns
`result.ok` on a response. -/
def async_plant_data_upload (st : ApiState) (now : Int) (x : TokenExchange)
    (dry_run : Bool) (params : Option StrDict) (o : ReqOutcome UploadResponse) : OpRun Bool :=
  match (async_get_token st now x).result with
  | .error e => ⟨none, .error (.tokenFailure e)⟩
  | .ok _ =>
      ⟨some ⟨st.base_url ++ "/sensor-data/upload", some (uploadQueryParams dry_run params)⟩,
        liftHandle (uploadHandle o)⟩

/-- Assigning a key then reading it back yields the assigned value. -/
theorem dictGet_dictSet_self {α : Type} (d : List (String × α)) (k : String) (v : α) :
    dictGet (dictSet d k v) k = some v := by
  induction d with
  | nil => simp [dictSet, dictGet]
  | cons kv rest ih =>
      simp only [dictSet]
      by_cases h : kv.1 = k
      · simp [h, dictGet]
      · simp [dictGet, h, ih]

/-- Assigning one key does not change the binding of another. -/
theorem dictGet_dictSet_other {α : Type} (d : List (String × α)) (k kq : String) (v : α)
    (h : k ≠ kq) : dictGet (dictSet d k v) kq = dictGet d kq := by
  induction d with
  | nil => simp [dictSet, dictGet, h]
  | cons kv rest ih =>
      simp only [dictSet]
      by_cases hk : kv.1 = k
      · simp [hk, dictGet, h]
      · simp only [hk, beq_iff_eq, if_false, dictGet, ih]

/-- Updating with a dict that does not bind `k` leaves `k`'s binding alone. -/
theorem dictGet_dictUpdate_not_mem {α : Type} (d e : List (String × α)) (k : String)
    (h : k ∉ e.map Prod.fst) : dictGet (dictUpdate d e) k = dictGet d k := by
  induction e generalizing d with
  | nil => rfl
  | cons kv rest ih =>
      have step : dictUpdate d (kv :: rest) = dictUpdate (dictSet d kv.1 kv.2) rest := rfl
      simp only [List.map_cons, List.mem_cons, not_or] at h
      rw [step, ih _ h.2, dictGet_dictSet_other _ _ _ _ (fun hq => h.1 hq.symm)]

/-- Updating with a dict (unique keys) that binds `k` to `v` makes the
binding of `k` equal to `v`. -/
theorem dictGet_dictUpdate_of_mem {α : Type} (d e : List (String × α)) (k : String) (v : α)
    (hnd : (e.map Prod.fst).Nodup) (hmem : (k, v) ∈ e) :
    dictGet (dictUpdate d e) k = some v := by
  induction e generalizing d with
  | nil => cases hmem
  | cons kv rest ih =>
      have step : dictUpdate d (kv :: rest) = dictUpdate (dictSet d kv.1 kv.2) rest := rfl
      rw [step]
      simp only [List.map_cons, List.nodup_cons] at hnd
      rcases List.mem_cons.mp hmem with heq | hmem'
      · have hk1 : kv.1 = k := by rw [← heq]
        have hk : k ∉ rest.map Prod.fst := hk1 ▸ hnd.1
        rw [dictGet_dictUpdate_not_mem _ _ _ hk, hk1, ← heq, dictGet_dictSet_self]
      · exact ih (dictSet d kv.1 kv.2) hnd.2 hmem'

/-- Claim C3 (amended): during search, detail and upload's own request,
`ServerTimeoutError`, `TooManyRedirects` and generic client errors are
swallowed to a returned `None`; any other unexpected failure is likewise
swallowed to `None` during detail, but during search (which has no generic
`except Exception` clause) it propagates as a raised exception rather than
returning `None`. -/
theorem ops_swallow_transport_errors {α : Type} (st : ApiState) (now : Int)
    (x : TokenExchange) (s pid : String) (lang : Option String) (p q : Option StrDict)
    (d : Bool) (e : TransportExc)
    (htok : (async_get_token st now x).result = .ok true)
    (he : e ≠ .other) :
    (async_plant_search st now x s p (.exc e : ReqOutcome α)).result = .ok none ∧
    (async_plant_detail_get st now x pid lang q (.exc e : ReqOutcome α)).result = .ok none ∧
    (async_plant_data_upload st now x d p (.exc e)).result = .ok none ∧
    (async_plant_detail_get st now x pid lang q (.exc .other : ReqOutcome α)).result
        = .ok none ∧
    (async_plant_search st now x s p (.exc .other : ReqOutcome α)).result
        = .error (.requestExc .other) := by
  unfold async_plant_search async_plant_detail_get async_plant_data_upload
  rw [htok]
  cases e <;> simp_all [searchHandle, detailHandle, uploadHandle, liftHandle]

/-- Witness for the amended C3 at a concrete state and a client error. -/
theorem ops_swallow_transport_errors_witness :
    (async_plant_search ⟨some "id", some "sec", "https://x", some ⟨"tok", 1000⟩⟩ 0
        (.exc .other) "rose" none (.exc .clientError : ReqOutcome Unit)).result = .ok none ∧
    (async_plant_detail_get ⟨some "id", some "sec", "https://x", some ⟨"tok", 1000⟩⟩ 0
        (.exc .other) "pid" none none (.exc .clientError : ReqOutcome Unit)).result
        = .ok none ∧
    (async_plant_data_upload ⟨some "id", some "sec", "https://x", some ⟨"tok", 1000⟩⟩ 0
        (.exc .other) false none (.exc .clientError)).result = .ok none ∧
    (async_plant_detail_get ⟨some "id", some "sec", "https://x", some ⟨"tok", 1000⟩⟩ 0
        (.exc .other) "pid" none none (.exc .other : ReqOutcome Unit)).result = .ok none ∧
    (async_plant_search ⟨some "id", some "sec", "https://x", some ⟨"tok", 1000⟩⟩ 0
        (.exc .other) "rose" none (.exc .other : ReqOutcome Unit)).result
        = .error (.requestExc .other) :=
  ops_swallow_transport_errors _ _ _ _ _ _ _ _ _ .clientError rfl (by decide)

/-- Claim C3 counterexample: with a valid cached token, an unexpected
non-transport failure during search's own request makes search raise, not
return `None` — refuting "any other unexpected failure during detail or
search is likewise swallowed to null/None" for search. -/
theorem search_other_exc_not_swallowed :
    (async_plant_search ⟨some "id", some "sec", "https://x", some ⟨"tok", 1000⟩⟩ 0
        (.exc .clientError) "rose" none (.exc .other : ReqOutcome Unit)).result
      = .error (.requestExc .other) ∧
    (async_plant_search ⟨some "id", some "sec", "https://x", some ⟨"tok", 1000⟩⟩ 0
        (.exc .clientError) "rose" none (.exc .other : ReqOutcome Unit)).result
      ≠ .ok none := by
  refine ⟨rfl, fun h => ?_⟩
  rw [show (async_plant_search ⟨some "id", some "sec", "https://x", some ⟨"tok", 1000⟩⟩ 0
      (.exc .clientError) "rose" none (.exc .other : ReqOutcome Unit)).result
      = .error (.requestExc .other) from rfl] at h
  exact Except.noConfusion h

/-- Claim C8: detail forwards `lang` as the `lang` query parameter, forwards
no query dict at all when `lang` is absent and no params are given, and on
a key collision the explicit `lang` argument overrides the caller-supplied
params dict. -/
theorem detail_lang_query_params (st : ApiState) (now : Int) (x : TokenExchange)
    (pid : String) (o : ReqOutcome Unit)
    (htok : (async_get_token st now x).result = .ok true) :
    (async_plant_detail_get st now x pid (some "de") none o).sent
        = some ⟨st.base_url ++ "/plant/detail/" ++ pid, some [("lang", "de")]⟩ ∧
    (async_plant_detail_get st now x pid none none o).sent
        = some ⟨st.base_url ++ "/plant/detail/" ++ pid, none⟩ ∧
    (async_plant_detail_get st now x pid (some "de")
          (some [("lang", "en"), ("page", "2")]) o).sent
        = some ⟨st.base_url ++ "/plant/detail/" ++ pid,
            some [("lang", "de"), ("page", "2")]⟩ := by
  unfold async_plant_detail_get
  rw [htok]
  exact ⟨rfl, rfl, rfl⟩

/-- Witness for C8 at a concrete state and pid. -/
theorem detail_lang_query_params_witness :
    (async_plant_detail_get ⟨some "id", some "sec", "https://x", some ⟨"tok", 1000⟩⟩ 0
        (.exc .other) "capsicum" (some "de") none (.exc .other : ReqOutcome Unit)).sent
        = some ⟨"https://x/plant/detail/capsicum", some [("lang", "de")]⟩ ∧
    (async_plant_detail_get ⟨some "id", some "sec", "https://x", some ⟨"tok", 1000⟩⟩ 0
        (.exc .other) "capsicum" none none (.exc .other : ReqOutcome Unit)).sent
        = some ⟨"https://x/plant/detail/capsicum", none⟩ ∧
    (async_plant_detail_get ⟨some "id", some "sec", "https://x", some ⟨"tok", 1000⟩⟩ 0
        (.exc .other) "capsicum" (some "de")
          (some [("lang", "en"), ("page", "2")]) (.exc .other : ReqOutcome Unit)).sent
        = some ⟨"https://x/plant/detail/capsicum", some [("lang", "de"), ("page", "2")]⟩ :=
  detail_lang_query_params _ _ _ _ _ rfl

/-- Claim C7: upload POSTs to the upload endpoint with a `dry_run` query
flag; a caller-supplied `dry_run` query parameter overrides the computed
value (in particular `dry_run=False` with `params={"dry_run": "true"}`
sends `dry_run=true`); and the returned value is the response's success
flag (`result.ok`). -/
theorem upload_params_override (st : ApiState) (now : Int) (x : TokenExchange)
    (d b : Bool) (p : StrDict) (v : String)
    (hnd : (p.map Prod.fst).Nodup) (hmem : ("dry_run", v) ∈ p)
    (htok : (async_get_token st now x).result = .ok true) :
    dictGet (uploadQueryParams d (some p)) "dry_run" = some v ∧
    uploadQueryParams false (some [("dry_run", "true")]) = [("dry_run", "true")] ∧
    (async_plant_data_upload st now x d (some p) (.response ⟨b⟩)).sent
      = some ⟨st.base_url ++ "/sensor-data/upload", some (uploadQueryParams d (some p))⟩ ∧
    (async_plant_data_upload st now x d (some p) (.response ⟨b⟩)).result = .ok (some b) := by
  refine ⟨dictGet_dictUpdate_of_mem _ _ _ _ hnd hmem, rfl, ?_, ?_⟩
  · unfold async_plant_data_upload
    rw [htok]
  · unfold async_plant_data_upload
    rw [htok]
    rfl

/-- Witness for C7 at the claim's own example input. -/
theorem upload_params_override_witness :
    dictGet (uploadQueryParams false (some [("dry_run", "true")])) "dry_run" = some "true" ∧
    uploadQueryParams false (some [("dry_run", "true")]) = [("dry_run", "true")] ∧
    (async_plant_data_upload ⟨some "id", some "sec", "https://x", some ⟨"tok", 1000⟩⟩ 0
        (.exc .other) false (some [("dry_run", "true")]) (.response ⟨true⟩)).sent
      = some ⟨"https://x/sensor-data/upload",
          some (uploadQueryParams false (some [("dry_run", "true")]))⟩ ∧
    (async_plant_data_upload ⟨some "id", some "sec", "https://x", some ⟨"tok", 1000⟩⟩ 0
        (.exc .other) false (some [("dry_run", "true")]) (.response ⟨true⟩)).result
      = .ok (some true) :=
  upload_params_override _ _ _ _ _ _ _ (by simp) (by simp) rfl

/-!
Register (`async_plant_instance_register`): decoded JSON values, payload
construction, and the sequential per-entry POST loop.
-/

/-- A decoded JSON value as Python sees it. -/
inductive PyJson where
  | null
  | str (s : String)
  | num (n : Int)
  | boolean (b : Bool)
  | arr (elems : List PyJson)
  | obj (entries : List (String × PyJson))

/-- Python `j == some_string` on a decoded JSON value: true exactly for an
equal string, false (never an exception) for every other value. -/
def PyJson.isStr (j : PyJson) (s : String) : Bool :=
  match j with
  | .str t => t == s
  | _ => false

/-- Whether a decoded JSON value is Python `None`. -/
def PyJson.isNull : PyJson → Bool
  | .null => true
  | _ => false

/-- Exceptions Python raises for an unguarded subscript `res[k]`. -/
inductive PyExc where
  | keyError
  | typeError
deriving Repr, DecidableEq

/-- Key lookup in a JSON object's entry list. -/
def lookupEntry : List (String × PyJson) → String → Option PyJson
  | [], _ => none
  | kv :: rest, k => if kv.1 == k then some kv.2 else lookupEntry rest k

/-- Python subscript `res[k]` on a decoded JSON value: a dict yields the
value or raises `KeyError`; any non-dict value raises `TypeError`. -/
def pyIndex (j : PyJson) (k : String) : Except PyExc PyJson :=
  match j with
  | .obj entries =>
      match lookupEntry entries k with
      | some v => .ok v
      | none => .error .keyError
  | _ => .error .typeError

/-- Lifts an optional Python argument into a JSON value (`None` ↦ null). -/
def optJson {α : Type} (f : α → PyJson) : Option α → PyJson
  | some a => f a
  | none => .null

/-- The payload construction of `async_plant_instance_register` (sdk.py
lines 212-226): build the location dict, pop every key whose value is
None, then update with `extra_json`.  Longitude and latitude are modelled
as integers (no arithmetic is ever done on them). -/
def buildApiPayload (location_country : Option String) (location_by_ip : Option Bool)
    (location_lon location_lat : Option Int)
    (extra_json : Option (List (String × PyJson))) : List (String × PyJson) :=
  let api_payload : List (String × PyJson) :=
    [("location_country", optJson PyJson.str location_country),
     ("location_by_IP", optJson PyJson.boolean location_by_ip),
     ("location_lon", optJson PyJson.num location_lon),
     ("location_lat", optJson PyJson.num location_lat)]
  let api_payload := api_payload.filter (fun kv => !kv.2.isNull)
  match extra_json with
  | some e => dictUpdate api_payload e
  | none => api_payload

/-- The per-entry body (sdk.py lines 237-238): the shared payload with
`custom_id` and `pid` assigned. -/
def entryPayload (base : List (String × PyJson)) (custom_id pid : String) :
    List (String × PyJson) :=
  dictSet (dictSet base "custom_id" (.str custom_id)) "pid" (.str pid)

/-- The exception type raised on an HTTP 400 validation response (sdk.py
lines 424-430); `errors` is the server's error list. -/
structure ValidationError where
  errors : PyJson

/-- Outcome of one per-entry POST: a response with its status and decoded
body, or a transport exception. -/
inductive PostOutcome where
  | response (status : Nat) (body : PyJson)
  | exc (e : TransportExc)

/-- Errors `async_plant_instance_register` can raise: a propagated token
failure, `ValidationError`, an unguarded `KeyError`/`TypeError` from
`res['type']` or `res['errors']`, the `ClientResponseError` from
`raise_for_status` on a non-2xx status, or an uncaught transport
exception. -/
inductive RegError where
  | tokenFailure (e : TokenError)
  | validation (e : ValidationError)
  | pyExc (e : PyExc)
  | httpError (status : Nat)
  | transport (e : TransportExc)

/-- One register run: the returned value or raised error (`.ok none`
models `return None`), and how many per-entry POSTs were issued. -/
structure RegRun where
  result : Except RegError (Option (List PyJson))
  posts : Nat

/-- The sequential POST loop of `async_plant_instance_register` (sdk.py
lines 228-265), with the surrounding `except` clauses applied: on status
400 the body is probed as `res['type']` (unguarded subscript) and a
validation error aborts the loop; other non-2xx statuses raise through
`raise_for_status`; `ServerTimeoutError`/`TooManyRedirects` return None;
every other exception propagates.  `respond` gives the transport outcome
of the i-th POST. -/
def regLoopGo (respond : Nat → PostOutcome) :
    List (String × String) → Nat → List PyJson → RegRun
  | [], i, acc => ⟨.ok (some acc.reverse), i⟩
  | _entry :: rest, i, acc =>
      match respond i with
      | .exc .serverTimeout => ⟨.ok none, i + 1⟩
      | .exc .tooManyRedirects => ⟨.ok none, i + 1⟩
      | .exc e => ⟨.error (.transport e), i + 1⟩
      | .response status body =>
          if status == 400 then
            match pyIndex body "type" with
            | .error e => ⟨.error (.pyExc e), i + 1⟩
            | .ok t =>
                if t.isStr "validation_error" then
                  match pyIndex body "errors" with
                  | .error e => ⟨.error (.pyExc e), i + 1⟩
                  | .ok errs => ⟨.error (.validation ⟨errs⟩), i + 1⟩
                else ⟨.error (.httpError status), i + 1⟩
          else if 400 ≤ status then ⟨.error (.httpError status), i + 1⟩
          else regLoopGo respond rest (i + 1) (body :: acc)

/-- Embedding of `OpenPlantBookApi.async_plant_instance_register` (sdk.py
lines 178-265): token step, then the sequential per-entry loop over
`sensor_pid_map` in iteration order. -/
def async_plant_instance_register (st : ApiState) (now : Int) (x : TokenExchange)
    (sensor_pid_map : List (String × String)) (respond : Nat → PostOutcome) : RegRun :=
  match (async_get_token st now x).result with
  | .error e => ⟨.error (.tokenFailure e), 0⟩
  | .ok _ => regLoopGo respond sensor_pid_map 0 []

/-- Every key of `dictSet d k v` is a key of `d` or is `k`. -/
theorem mem_keys_dictSet {α : Type} (d : List (String × α)) (k : String) (v : α)
    (kq : String) (h : kq ∈ (dictSet d k v).map Prod.fst) :
    kq ∈ d.map Prod.fst ∨ kq = k := by
  induction d with
  | nil => simp [dictSet] at h; simp [h]
  | cons kv rest ih =>
      simp only [dictSet] at h
      by_cases hk : kv.1 = k
      · simp only [hk, beq_self_eq_true, if_true, List.map_cons, List.mem_cons] at h
        rcases h with h | h
        · exact Or.inr h
        · exact Or.inl (by rw [List.map_cons]; exact List.mem_cons_of_mem _ h)
      · simp only [hk, beq_iff_eq, if_false, List.map_cons, List.mem_cons] at h
        rcases h with h | h
        · exact Or.inl (by simp [h])
        · rcases ih h with h' | h'
          · exact Or.inl (by rw [List.map_cons]; exact List.mem_cons_of_mem _ h')
          · exact Or.inr h'

/-- Every key of `dictUpdate d e` is a key of `d` or of `e`. -/
theorem mem_keys_dictUpdate {α : Type} (d e : List (String × α)) (kq : String)
    (h : kq ∈ (dictUpdate d e).map Prod.fst) :
    kq ∈ d.map Prod.fst ∨ kq ∈ e.map Prod.fst := by
  induction e generalizing d with
  | nil => exact Or.inl h
  | cons kv rest ih =>
      have step : dictUpdate d (kv :: rest) = dictUpdate (dictSet d kv.1 kv.2) rest := rfl
      rw [step] at h
      rcases ih (dictSet d kv.1 kv.2) h with h' | h'
      · rcases mem_keys_dictSet _ _ _ _ h' with h'' | h''
        · exact Or.inl h''
        · exact Or.inr (by simp [h''])
      · exact Or.inr (by rw [List.map_cons]; exact List.mem_cons_of_mem _ h')

/-- A key of the register payload for one entry comes from the base
payload, or is `custom_id` or `pid`. -/
theorem mem_keys_entryPayload (base : List (String × PyJson)) (cid pid kq : String)
    (h : kq ∈ (entryPayload base cid pid).map Prod.fst) :
    kq ∈ base.map Prod.fst ∨ kq = "custom_id" ∨ kq = "pid" := by
  unfold entryPayload at h
  rcases mem_keys_dictSet _ _ _ _ h with h' | h'
  · rcases mem_keys_dictSet _ _ _ _ h' with h'' | h''
    · exact Or.inl h''
    · exact Or.inr (Or.inl h'')
  · exact Or.inr (Or.inr h')

/-- A key of the base register payload is one of the four location keys
with its argument actually supplied, or a key of `extra_json`. -/
theorem mem_keys_buildApiPayload (cc : Option String) (cip : Option Bool)
    (lon lat : Option Int) (e : List (String × PyJson)) (kq : String)
    (h : kq ∈ (buildApiPayload cc cip lon lat (some e)).map Prod.fst) :
    (kq = "location_country" ∧ cc ≠ none) ∨ (kq = "location_by_IP" ∧ cip ≠ none) ∨
    (kq = "location_lon" ∧ lon ≠ none) ∨ (kq = "location_lat" ∧ lat ≠ none) ∨
    kq ∈ e.map Prod.fst := by
  unfold buildApiPayload at h
  rcases mem_keys_dictUpdate _ _ _ h with h' | h'
  · simp only [List.filter_map, List.mem_map, List.mem_filter] at h'
    rcases h' with ⟨kv, ⟨hmem, hnn⟩, hfst⟩
    simp only [List.mem_cons, List.not_mem_nil, or_false] at hmem
    rcases hmem with rfl | rfl | rfl | rfl
    · refine Or.inl ⟨hfst.symm, ?_⟩
      cases cc with
      | none => simp [optJson, PyJson.isNull] at hnn
      | some a => simp
    · refine Or.inr (Or.inl ⟨hfst.symm, ?_⟩)
      cases cip with
      | none => simp [optJson, PyJson.isNull] at hnn
      | some a => simp
    · refine Or.inr (Or.inr (Or.inl ⟨hfst.symm, ?_⟩))
      cases lon with
      | none => simp [optJson, PyJson.isNull] at hnn
      | some a => simp
    · refine Or.inr (Or.inr (Or.inr (Or.inl ⟨hfst.symm, ?_⟩)))
      cases lat with
      | none => simp [optJson, PyJson.isNull] at hnn
      | some a => simp
  · exact Or.inr (Or.inr (Or.inr (Or.inr h')))

/-- Claim C9: a location field left at its default `None` (and not
reintroduced through `extra_json`) never appears as a key of the JSON body
sent for an entry: the key is popped from the payload, not sent as null. -/
theorem register_payload_omits_none_fields (cc : Option String) (cip : Option Bool)
    (lon lat : Option Int) (e : List (String × PyJson)) (cid pid : String) :
    (cc = none → "location_country" ∉ e.map Prod.fst →
      "location_country" ∉
        (entryPayload (buildApiPayload cc cip lon lat (some e)) cid pid).map Prod.fst) ∧
    (cip = none → "location_by_IP" ∉ e.map Prod.fst →
      "location_by_IP" ∉
        (entryPayload (buildApiPayload cc cip lon lat (some e)) cid pid).map Prod.fst) ∧
    (lon = none → "location_lon" ∉ e.map Prod.fst →
      "location_lon" ∉
        (entryPayload (buildApiPayload cc cip lon lat (some e)) cid pid).map Prod.fst) ∧
    (lat = none → "location_lat" ∉ e.map Prod.fst →
      "location_lat" ∉
        (entryPayload (buildApiPayload cc cip lon lat (some e)) cid pid).map Prod.fst) := by
  refine ⟨fun hd he h => ?_, fun hd he h => ?_, fun hd he h => ?_, fun hd he h => ?_⟩ <;>
  · rcases mem_keys_entryPayload _ _ _ _ h with h' | h' | h'
    · rcases mem_keys_buildApiPayload _ _ _ _ _ _ h' with ⟨h1, h2⟩ | ⟨h1, h2⟩ | ⟨h1, h2⟩ |
        ⟨h1, h2⟩ | h1 <;> first
        | exact h2 hd
        | exact he h1
        | simp at h1
    · simp at h'
    · simp at h'

/-- Witness for C9: all four location arguments left at `None`, with an
unrelated `extra_json` key. -/
theorem register_payload_omits_none_fields_witness :
    ("location_country" ∉
      (entryPayload (buildApiPayload none none none none
          (some [("location_name", .str "Sydney")])) "A" "p1").map Prod.fst) ∧
    ("location_by_IP" ∉
      (entryPayload (buildApiPayload none none none none
          (some [("location_name", .str "Sydney")])) "A" "p1").map Prod.fst) ∧
    ("location_lon" ∉
      (entryPayload (buildApiPayload none none none none
          (some [("location_name", .str "Sydney")])) "A" "p1").map Prod.fst) ∧
    ("location_lat" ∉
      (entryPayload (buildApiPayload none none none none
          (some [("location_name", .str "Sydney")])) "A" "p1").map Prod.fst) := by
  have h := register_payload_omits_none_fields none none none none
      [("location_name", .str "Sydney")] "A" "p1"
  exact ⟨h.1 rfl (by simp), h.2.1 rfl (by simp), h.2.2.1 rfl (by simp),
    h.2.2.2 rfl (by simp)⟩

/-- When the first `k` POSTs all get a 200 response, the register loop
reaches entry `k` with `k` POSTs already issued. -/
theorem regLoopGo_skip (respond : Nat → PostOutcome) (entries : List (String × String))
    (k i : Nat) (acc : List PyJson)
    (hk : k ≤ entries.length)
    (hok : ∀ j, j < k → ∃ b, respond (i + j) = .response 200 b) :
    ∃ acc2, regLoopGo respond entries i acc
        = regLoopGo respond (entries.drop k) (i + k) acc2 := by
  induction k generalizing entries i acc with
  | zero => exact ⟨acc, by simp⟩
  | succ k ih =>
      cases entries with
      | nil => simp at hk
      | cons hd tl =>
          obtain ⟨b, hb⟩ := by
            have := hok 0 (Nat.succ_pos k)
            rwa [Nat.add_zero] at this
          have hstep : regLoopGo respond (hd :: tl) i acc
              = regLoopGo respond tl (i + 1) (b :: acc) := by
            simp [regLoopGo, hb]
          have hok' : ∀ j, j < k → ∃ c, respond (i + 1 + j) = .response 200 c := by
            intro j hj
            have := hok (j + 1) (by omega)
            rwa [show i + (j + 1) = i + 1 + j by omega] at this
          obtain ⟨acc2, h2⟩ := ih tl (i + 1) (b :: acc) (by simpa using hk) hok'
          refine ⟨acc2, ?_⟩
          rw [hstep, h2, List.drop_succ_cons, show i + 1 + k = i + (k + 1) by omega]

/-- Claim C6: if the first `k` POSTs succeed and the POST for entry `k`
returns HTTP 400 with a body `{"type": "validation_error", "errors": ...}`,
register raises `ValidationError` whose `errors` field is exactly the
server's error list, having issued `k + 1` POSTs: no POST is issued for
any entry after the failing one. -/
theorem register_validation_aborts (st : ApiState) (now : Int) (x : TokenExchange)
    (entries : List (String × String)) (respond : Nat → PostOutcome)
    (k : Nat) (body errs : PyJson)
    (hk : k < entries.length)
    (hok : ∀ j, j < k → ∃ b, respond j = .response 200 b)
    (hfail : respond k = .response 400 body)
    (htype : pyIndex body "type" = .ok (.str "validation_error"))
    (herrs : pyIndex body "errors" = .ok errs)
    (htok : (async_get_token st now x).result = .ok true) :
    async_plant_instance_register st now x entries respond
      = ⟨.error (.validation ⟨errs⟩), k + 1⟩ := by
  unfold async_plant_instance_register
  rw [htok]
  obtain ⟨acc2, hskip⟩ := regLoopGo_skip respond entries k 0 [] (le_of_lt hk)
    (by intro j hj; simpa using hok j hj)
  rw [hskip]
  obtain ⟨hd, rest, hdr⟩ := List.exists_cons_of_ne_nil
    (show entries.drop k ≠ [] by
      intro hnil
      have := List.drop_eq_nil_iff.mp hnil
      omega)
  rw [hdr, Nat.zero_add]
  simp [regLoopGo, hfail, htype, herrs, PyJson.isStr]

/-- Witness for C6: three entries, entry 1 fails validation; exactly two
POSTs are issued and the third entry is never sent. -/
theorem register_validation_aborts_witness :
    async_plant_instance_register
        ⟨some "id", some "sec", "https://x", some ⟨"tok", 1000⟩⟩ 0 (.exc .other)
        [("A", "p1"), ("B", "p2"), ("C", "p3")]
        (fun n => if n == 0 then .response 200 (.obj []) else .response 400
          (.obj [("type", .str "validation_error"), ("errors", .arr [.str "bad"])]))
      = ⟨.error (.validation ⟨.arr [.str "bad"]⟩), 2⟩ := by
  refine register_validation_aborts _ _ _ _ _ 1
      (.obj [("type", .str "validation_error"), ("errors", .arr [.str "bad"])])
      (.arr [.str "bad"]) (by simp) ?_ rfl rfl rfl rfl
  intro j hj
  have hj0 : j = 0 := by omega
  subst hj0
  exact ⟨.obj [], rfl⟩

/-- Claim C10: if the first `k` POSTs succeed and the POST for entry `k`
returns HTTP 400 with a decoded body on which the unguarded subscript
`res['type']` fails (a dict lacking the key `type`, raising `KeyError`, or
a non-dict value, raising `TypeError`), register raises that untyped
lookup error — not `ValidationError` and not the generic
`raise_for_status` outcome. -/
theorem register_400_unguarded_body (st : ApiState) (now : Int) (x : TokenExchange)
    (entries : List (String × String)) (respond : Nat → PostOutcome)
    (k : Nat) (body : PyJson) (e : PyExc)
    (hk : k < entries.length)
    (hok : ∀ j, j < k → ∃ b, respond j = .response 200 b)
    (hfail : respond k = .response 400 body)
    (hmiss : pyIndex body "type" = .error e)
    (htok : (async_get_token st now x).result = .ok true) :
    async_plant_instance_register st now x entries respond
      = ⟨.error (.pyExc e), k + 1⟩ := by
  unfold async_plant_instance_register
  rw [htok]
  obtain ⟨acc2, hskip⟩ := regLoopGo_skip respond entries k 0 [] (le_of_lt hk)
    (by intro j hj; simpa using hok j hj)
  rw [hskip]
  obtain ⟨hd, rest, hdr⟩ := List.exists_cons_of_ne_nil
    (show entries.drop k ≠ [] by
      intro hnil
      have := List.drop_eq_nil_iff.mp hnil
      omega)
  rw [hdr, Nat.zero_add]
  simp [regLoopGo, hfail, hmiss]

/-- Witness for C10: a 400 response whose dict body has no `type` key
yields a `KeyError`, outside the SDK's documented error taxonomy. -/
theorem register_400_unguarded_body_witness :
    async_plant_instance_register
        ⟨some "id", some "sec", "https://x", some ⟨"tok", 1000⟩⟩ 0 (.exc .other)
        [("A", "p1")]
        (fun _ => .response 400 (.obj [("detail", .str "bad request")]))
      = ⟨.error (.pyExc .keyError), 1⟩ :=
  register_400_unguarded_body _ _ _ _ _ 0 (.obj [("detail", .str "bad request")])
    .keyError (by simp) (fun j hj => absurd hj (by omega)) rfl rfl rfl
